import Mathlib

/-!
Verification of the authentication / authorization gate of the TeleCheck
repository (`src/server/middleware/auth.ts`): the `authenticateToken`
middleware and the `requireRole` gate.

The middleware is shallowly embedded.  External collaborators are modelled
by their observable behaviour:

* `jwt.verify(token, secret)` and `JSON.parse(atob(token))` are black-box
  library calls; a token string is therefore characterised by a
  `TokenBehavior` record saying what each call returns on it.
* the user store (`dbPool.query` with `SELECT id, email, role FROM users WHERE id = $1`)
  is modelled as an optional lookup function (`none` = no pool configured),
  returning the first row, not-found, or a query error.

Everything in the control flow of the source itself — header splitting, JavaScript
truthiness of the involved values, the expiry check, the demo-fallback
condition, the defaulting chain `decoded.id || decoded.userId || "demo-user"`
— is translated directly from the TypeScript.
-/

namespace Telecheck

/-- JavaScript truthiness of an optional string value
(`undefined` and the empty string are falsy). -/
def truthyStr : Option String → Bool
  | none => false
  | some s => s ≠ ""

/-- The JavaScript `a || b` chain on an optional string with a default:
yields the value of `a` when it is truthy, otherwise the default. -/
def jsOrD (a : Option String) (d : String) : String :=
  match a with
  | none => d
  | some s => if s = "" then d else s

/-- `isPrefixL n h` : is `n` a prefix of `h` (character lists). -/
def isPrefixL : List Char → List Char → Bool
  | [], _ => true
  | _ :: _, [] => false
  | a :: as, b :: bs => a == b && isPrefixL as bs

/-- `isInfixL n h` : does `n` occur as a contiguous substring of `h`?
Models JavaScript `String.prototype.includes`. -/
def isInfixL (n : List Char) : List Char → Bool
  | [] => isPrefixL n []
  | c :: t => isPrefixL n (c :: t) || isInfixL n t

/-- `urlIncludes url pat` models `url.includes(pat)` in JavaScript. -/
def urlIncludes (url pat : String) : Bool :=
  isInfixL pat.data url.data

/-- The identity object the middleware attaches as `req.user`. -/
structure UserIdentity where
  id : String
  email : String
  role : String
deriving DecidableEq, Repr

/-- The fixed synthetic demo identity the fallback path attaches. -/
def demoUser : UserIdentity :=
  { id := "demo-user", email := "demo@example.com", role := "admin" }

/-- The environment flags read by the middleware:
whether `process.env.FLY_APP_NAME` is set (truthy), and whether
`process.env.NODE_ENV === "production"`. -/
structure Env where
  flyAppName : Bool
  nodeEnvProduction : Bool
deriving DecidableEq, Repr

/-- The parts of the request the middleware reads: the `authorization`
header (`none` = header absent) and `req.url`. -/
structure Req where
  authHeader : Option String
  url : String
deriving DecidableEq, Repr

/-- The fields of a decoded token payload that the middleware reads
(`decoded.id`, `decoded.userId`, `decoded.email`, `decoded.role`,
`decoded.exp`).  `none` means the field is absent. -/
structure JwtPayload where
  id? : Option String := none
  userId? : Option String := none
  email? : Option String := none
  role? : Option String := none
  exp? : Option Int := none
deriving DecidableEq, Repr

/-- Observable outcome of `jwt.verify(token, JWT_SECRET)` on a token:
success with a decoded payload, a `TokenExpiredError` throw, or any other
verification throw.  The source catches all throws alike. -/
inductive JwtResult where
  | ok (payload : JwtPayload)
  | expired
  | invalid
deriving DecidableEq, Repr

/-- Observable outcome of `JSON.parse(atob(token))` on a token:
a parsed payload, or a throw (not base64, or not JSON). -/
inductive MockDecode where
  | ok (payload : JwtPayload)
  | fail
deriving DecidableEq, Repr

/-- A token string, characterised by what the two black-box decoding
attempts return on it. -/
structure TokenBehavior where
  jwtVerify : JwtResult
  mockDecode : MockDecode
deriving DecidableEq, Repr

/-- Result of one lookup `SELECT id, email, role FROM users WHERE id = $1`:
a first row, an empty result set, or a query error (throw). -/
inductive DbLookup where
  | found (id email role : String)
  | notFound
  | dbError
deriving DecidableEq, Repr

/-- Overall outcome of the middleware on a request: `ok u` means
`req.user` was set to `u` and `next()` was called; `reject s c` means the
middleware responded with HTTP status `s` and error code `c`. -/
inductive AuthResult where
  | ok (user : UserIdentity)
  | reject (status : Nat) (code : String)
deriving DecidableEq, Repr

/-- Split a character list at every occurrence of the separator character,
keeping empty chunks — the semantics of JavaScript
`String.prototype.split` with a one-character separator. -/
def splitChar (sep : Char) : List Char → List (List Char)
  | [] => [[]]
  | c :: cs =>
    let rest := splitChar sep cs
    if c = sep then [] :: rest
    else
      match rest with
      | [] => [[c]]
      | r :: rs => (c :: r) :: rs

/-- Models `s.split` with a single-space separator in JavaScript. -/
def jsSplitSpace (s : String) : List String :=
  (splitChar (Char.ofNat 32) s.data).map fun l => ⟨l⟩

/-- Models `const token = authHeader && authHeader.split(...)[1]` with the
single-space separator, followed by the
falsiness test `if (!token)`.  Returns `none` exactly when the `token`
variable of the code is falsy (`undefined` header, empty header, missing second
space-separated chunk, or empty second chunk). -/
def extractToken (authHeader : Option String) : Option String :=
  match authHeader with
  | none => none
  | some h =>
    if h = "" then none
    else
      match (jsSplitSpace h).get? 1 with
      | none => none
      | some t => if t = "" then none else some t

/-- The demo-fallback trigger condition, exactly as tested twice in the
source:
`process.env.FLY_APP_NAME || req.url.includes("/patients") || process.env.NODE_ENV !== "production"`. -/
def demoCond (env : Env) (url : String) : Bool :=
  env.flyAppName || urlIncludes url "/patients" || !env.nodeEnvProduction

/-- The mock-token expiry check `if (decoded.exp && Date.now() > decoded.exp)`.
JavaScript truthiness: an absent `exp` or `exp === 0` skips the check. -/
def expCheck (exp? : Option Int) (now : Int) : Bool :=
  match exp? with
  | none => false
  | some e => e ≠ 0 && now > e

/-- Outcome of the two-stage token validation. -/
inductive ValidateResult where
  | ok (payload : JwtPayload)
  | expired
  | invalid
deriving DecidableEq, Repr

/-- The dual-format validation ladder of the source: try `jwt.verify`
first; on any throw, try `JSON.parse(atob(token))`; a decoded mock payload
with a truthy expiry in the past is `expired`; a mock decode throw is
`invalid`. -/
def validateToken (tb : TokenBehavior) (now : Int) : ValidateResult :=
  match tb.jwtVerify with
  | .ok payload => .ok payload
  | .expired | .invalid =>
    match tb.mockDecode with
    | .ok payload =>
      if expCheck payload.exp? now then .expired else .ok payload
    | .fail => .invalid

/-- The claims-derived identity of the no-store branch:
id = `decoded.id || decoded.userId || "demo-user"`, email = `decoded.email || "demo@example.com"`, role = `decoded.role || "admin"`. -/
def identityFromClaims (p : JwtPayload) : UserIdentity :=
  { id := jsOrD p.id? (jsOrD p.userId? "demo-user")
    email := jsOrD p.email? "demo@example.com"
    role := jsOrD p.role? "admin" }

/-- The identity-resolution tail of `authenticateToken`:
`if (dbPool && decoded.id)` do the store lookup (empty result →
401 `USER_NOT_FOUND`, query throw → 500 `DB_ERROR`, row → `req.user` from
the row); otherwise build `req.user` from the claims with defaults. -/
def resolveUser (db : Option (String → DbLookup)) (p : JwtPayload) :
    AuthResult :=
  match db with
  | some lookup =>
    match p.id? with
    | some i =>
      if i = "" then .ok (identityFromClaims p)
      else
        match lookup i with
        | .found uid uemail urole => .ok ⟨uid, uemail, urole⟩
        | .notFound => .reject 401 "USER_NOT_FOUND"
        | .dbError => .reject 500 "DB_ERROR"
    | none => .ok (identityFromClaims p)
  | none => .ok (identityFromClaims p)

/-- The `authenticateToken` middleware.  `behavior` gives the black-box
decoding behaviour of each token string; `db` is the optional user store;
`now` is `Date.now()`. -/
def authenticateToken (env : Env) (req : Req)
    (behavior : String → TokenBehavior)
    (db : Option (String → DbLookup)) (now : Int) : AuthResult :=
  match extractToken req.authHeader with
  | none =>
    if demoCond env req.url then .ok demoUser
    else .reject 401 "TOKEN_MISSING"
  | some tok =>
    match validateToken (behavior tok) now with
    | .expired => .reject 401 "TOKEN_EXPIRED"
    | .invalid =>
      if demoCond env req.url then .ok demoUser
      else .reject 401 "TOKEN_INVALID"
    | .ok p => resolveUser db p

/-- Outcome of the role gate: `next()` or a structured rejection. -/
inductive RoleGateResult where
  | permit
  | reject (status : Nat) (code : String)
deriving DecidableEq, Repr

/-- The `requireRole(roles)` middleware applied to a request whose
attached identity is `user?` (`none` = no `req.user`). -/
def requireRole (roles : List String) (user? : Option UserIdentity) :
    RoleGateResult :=
  match user? with
  | none => .reject 401 "AUTH_REQUIRED"
  | some u =>
    if roles.contains u.role then .permit
    else .reject 403 "INSUFFICIENT_PERMISSIONS"

/-- Spec-side reading of the Token Resolver contract (for comparison with
`extractToken`, which is translated from the source): a header is
well-formed iff it is exactly of the form `"Bearer <token>"` — the scheme
word `Bearer`, one space, and a nonempty token — and then the token
substring is the result. -/
def bearerFormToken? (h : String) : Option String :=
  match jsSplitSpace h with
  | [scheme, t] => if scheme = "Bearer" ∧ t ≠ "" then some t else none
  | _ => none

/-- Spec-side reading of demo-fallback trigger condition (b) (for
comparison with `req.url.includes("/patients")` in the source): the request
path matches the allow-listed prefix, i.e. starts with `/patients`. -/
def specPathMatchesPrefix (url : String) : Bool :=
  isPrefixL "/patients".data url.data


/-! ## Claim C1 -/

/-- Claim C1 counterexample: in strict-production mode
(`NODE_ENV === "production"`) but with the demo-deployment marker
(`FLY_APP_NAME`) set, a request with no token still gets the synthetic
demo identity attached — the demo-fallback path IS taken in production
when another trigger condition holds. -/
theorem strictProduction_fallback_cex :
    (Env.mk true true).nodeEnvProduction = true
    ∧ authenticateToken ⟨true, true⟩ ⟨none, "/x"⟩ (fun _ => ⟨.invalid, .fail⟩)
        none 0 = .ok demoUser := by
  exact ⟨rfl, by decide⟩

/-- Claim C1 (amended): the three trigger conditions are a disjunction, so
strict-production mode alone does not disable the fallback; but when
`NODE_ENV === "production"` holds AND the demo-deployment marker is absent
AND the request URL does not contain the allow-listed segment, the
demo-fallback path is never taken: a missing token yields 401
`TOKEN_MISSING` and a token failing both validation attempts yields 401
`TOKEN_INVALID`, with no synthetic identity attached. -/
theorem strictProduction_no_fallback (env : Env) (req : Req)
    (behavior : String → TokenBehavior) (db : Option (String → DbLookup))
    (now : Int)
    (hp : env.nodeEnvProduction = true) (hf : env.flyAppName = false)
    (hu : urlIncludes req.url "/patients" = false) :
    (extractToken req.authHeader = none →
      authenticateToken env req behavior db now = .reject 401 "TOKEN_MISSING")
    ∧ (∀ tok, extractToken req.authHeader = some tok →
        validateToken (behavior tok) now = .invalid →
        authenticateToken env req behavior db now = .reject 401 "TOKEN_INVALID") := by
  have hd : demoCond env req.url = false := by
    simp [demoCond, hp, hf, hu]
  constructor
  · intro h
    simp [authenticateToken, h, hd]
  · intro tok h hv
    simp [authenticateToken, h, hv, hd]

/-- Witness for `strictProduction_no_fallback` at a concrete input. -/
theorem strictProduction_no_fallback_witness :
    authenticateToken ⟨false, true⟩ ⟨none, "/x"⟩ (fun _ => ⟨.invalid, .fail⟩)
      none 0 = .reject 401 "TOKEN_MISSING" :=
  (strictProduction_no_fallback ⟨false, true⟩ ⟨none, "/x"⟩
      (fun _ => ⟨.invalid, .fail⟩) none 0 rfl rfl (by decide)).1 rfl

/-! ## Claim C2 -/

/-- Claim C2 counterexample: read as written — with trigger condition (b)
being that the request path matches the allow-listed PREFIX — the claim
fails: for the URL `/api/patients/1` the prefix condition is false, the
marker is absent and the process is in strict-production mode, so no
trigger condition holds and the claim requires 401 `TOKEN_MISSING`; the
code instead attaches the synthetic identity, because it tests substring
containment of `/patients`, not a prefix match. -/
theorem missingToken_prefix_cex :
    (Env.mk false true).flyAppName = false
    ∧ (Env.mk false true).nodeEnvProduction = true
    ∧ specPathMatchesPrefix "/api/patients/1" = false
    ∧ authenticateToken ⟨false, true⟩ ⟨none, "/api/patients/1"⟩
        (fun _ => ⟨.invalid, .fail⟩) none 0 = .ok demoUser := by
  exact ⟨rfl, rfl, by decide, by decide⟩

/-- Claim C2 (amended): with trigger condition (b) read as the source has
it — the request URL CONTAINS the allow-listed segment `/patients`
anywhere, not only as a prefix — the claim holds: a tokenless request is
rejected with 401 `TOKEN_MISSING` iff no trigger condition holds, and if
any trigger condition holds the fixed synthetic administrative identity is
attached and the request proceeds. -/
theorem missingToken_fallback_iff (env : Env) (req : Req)
    (behavior : String → TokenBehavior) (db : Option (String → DbLookup))
    (now : Int)
    (h : extractToken req.authHeader = none) :
    (authenticateToken env req behavior db now = .reject 401 "TOKEN_MISSING"
      ↔ demoCond env req.url = false)
    ∧ (demoCond env req.url = true →
        authenticateToken env req behavior db now = .ok demoUser) := by
  unfold authenticateToken
  rw [h]
  cases hd : demoCond env req.url <;> simp

/-- Witness for `missingToken_fallback_iff` at a concrete input. -/
theorem missingToken_fallback_iff_witness :
    authenticateToken ⟨false, false⟩ ⟨none, "/x"⟩ (fun _ => ⟨.invalid, .fail⟩)
      none 0 = .ok demoUser :=
  (missingToken_fallback_iff ⟨false, false⟩ ⟨none, "/x"⟩
      (fun _ => ⟨.invalid, .fail⟩) none 0 rfl).2 (by decide)

/-! ## Claim C3 -/

/-- Claim C3 counterexample: an expired SIGNED token (one on which
`jwt.verify` throws `TokenExpiredError`) is not rejected with
`TOKEN_EXPIRED`: the catch block treats every `jwt.verify` throw alike,
the mock decode of a JWT string then also throws, and the demo fallback
attaches the synthetic identity instead of rejecting. -/
theorem expiredSignedToken_cex :
    authenticateToken ⟨false, false⟩ ⟨some "Bearer t", "/x"⟩
      (fun _ => ⟨.expired, .fail⟩) none 1000 = .ok demoUser
    ∧ (AuthResult.ok demoUser ≠ .reject 401 "TOKEN_EXPIRED") := by
  exact ⟨by decide, by decide⟩

/-- Claim C3 (amended): the `TOKEN_EXPIRED` rejection applies to the MOCK
envelope only, and only when its expiry field is truthy: for every token
failing signed verification whose mock envelope decodes with a nonzero
expiry timestamp earlier than the current time, the middleware rejects
with 401 `TOKEN_EXPIRED` regardless of the other fields and never falls
back to a synthesized identity; an expired signed token instead follows
the invalid-token path. -/
theorem mockExpired_rejected (env : Env) (req : Req)
    (behavior : String → TokenBehavior) (db : Option (String → DbLookup))
    (now : Int) (tok : String) (p : JwtPayload) (e : Int)
    (ht : extractToken req.authHeader = some tok)
    (hj : (behavior tok).jwtVerify = .expired ∨ (behavior tok).jwtVerify = .invalid)
    (hm : (behavior tok).mockDecode = .ok p)
    (he : p.exp? = some e) (hez : e ≠ 0) (hlt : e < now) :
    authenticateToken env req behavior db now = .reject 401 "TOKEN_EXPIRED" := by
  have hc : expCheck p.exp? now = true := by
    unfold expCheck
    rw [he]
    simp only [Bool.and_eq_true, decide_eq_true_eq, ne_eq]
    exact ⟨hez, hlt⟩
  have hv : validateToken (behavior tok) now = .expired := by
    unfold validateToken
    rcases hj with hj | hj <;> rw [hj, hm] <;> simp [hc]
  simp [authenticateToken, ht, hv]

/-- Witness for `mockExpired_rejected` at a concrete input. -/
theorem mockExpired_rejected_witness :
    authenticateToken ⟨false, false⟩ ⟨some "Bearer t", "/x"⟩
      (fun _ => ⟨.invalid, .ok { exp? := some 5 }⟩) none 100
      = .reject 401 "TOKEN_EXPIRED" :=
  mockExpired_rejected ⟨false, false⟩ ⟨some "Bearer t", "/x"⟩
    (fun _ => ⟨.invalid, .ok { exp? := some 5 }⟩) none 100 "t"
    { exp? := some 5 } 5 (by decide) (Or.inr rfl) rfl rfl (by decide) (by decide)

/-! ## Claim C4 -/

/-- Claim C4 counterexample: a token whose signed verification fails and
whose base64 payload decodes to an object with NO identity field and NO
role field is accepted, not treated as a validation failure: the request
proceeds with the defaulted administrative identity (here in
strict-production mode with no fallback trigger, so the acceptance is the
validation ladder itself, not the demo fallback). -/
theorem mockNoFields_accepted_cex :
    authenticateToken ⟨false, true⟩ ⟨some "Bearer t", "/x"⟩
      (fun _ => ⟨.invalid, .ok {}⟩) none 0
      = .ok ⟨"demo-user", "demo@example.com", "admin"⟩ := by
  decide

/-- Claim C4 (amended): mock-envelope verification performs no field
validation at all: for every token failing signed verification whose
payload base64-decodes and JSON-parses (and whose expiry check does not
fire), validation succeeds with exactly the parsed payload — identity and
role fields are not required — and the middleware proceeds to identity
resolution on that payload. -/
theorem mockDecoded_accepted (env : Env) (req : Req)
    (behavior : String → TokenBehavior) (db : Option (String → DbLookup))
    (now : Int) (tok : String) (p : JwtPayload)
    (ht : extractToken req.authHeader = some tok)
    (hj : (behavior tok).jwtVerify = .expired ∨ (behavior tok).jwtVerify = .invalid)
    (hm : (behavior tok).mockDecode = .ok p)
    (he : expCheck p.exp? now = false) :
    validateToken (behavior tok) now = .ok p
    ∧ authenticateToken env req behavior db now = resolveUser db p := by
  have hv : validateToken (behavior tok) now = .ok p := by
    unfold validateToken
    rcases hj with hj | hj <;> rw [hj, hm] <;> simp [he]
  exact ⟨hv, by simp [authenticateToken, ht, hv]⟩

/-- Witness for `mockDecoded_accepted` at a concrete input. -/
theorem mockDecoded_accepted_witness :
    validateToken ⟨.invalid, .ok { role? := some "nurse" }⟩ 0
        = .ok { role? := some "nurse" }
    ∧ authenticateToken ⟨false, true⟩ ⟨some "Bearer t", "/x"⟩
        (fun _ => ⟨.invalid, .ok { role? := some "nurse" }⟩) none 0
      = resolveUser none { role? := some "nurse" } :=
  mockDecoded_accepted ⟨false, true⟩ ⟨some "Bearer t", "/x"⟩
    (fun _ => ⟨.invalid, .ok { role? := some "nurse" }⟩) none 0 "t"
    { role? := some "nurse" } rfl (Or.inr rfl) rfl rfl

/-! ## Claim C5 -/

/-- Claim C5: the Role Gate is a pure function of the attached identity
and the allow-list (modelled as such); it rejects with 401 `AUTH_REQUIRED`
when no identity is attached, rejects with 403 `INSUFFICIENT_PERMISSIONS`
whenever an identity is attached whose role is not in the allow-list
(never permitting such a request), and permits otherwise. -/
theorem requireRole_gate_spec (roles : List String) (u? : Option UserIdentity) :
    (u? = none → requireRole roles u? = .reject 401 "AUTH_REQUIRED")
    ∧ (∀ u, u? = some u → u.role ∉ roles →
        requireRole roles u? = .reject 403 "INSUFFICIENT_PERMISSIONS")
    ∧ (∀ u, u? = some u → u.role ∈ roles →
        requireRole roles u? = .permit) := by
  refine ⟨?_, ?_, ?_⟩
  · rintro rfl
    rfl
  · rintro u rfl hu
    simp [requireRole, hu]
  · rintro u rfl hu
    simp [requireRole, hu]

/-- Witness for `requireRole_gate_spec` at concrete inputs. -/
theorem requireRole_gate_spec_witness :
    requireRole ["doctor", "admin"] none = .reject 401 "AUTH_REQUIRED"
    ∧ requireRole ["doctor", "admin"] (some ⟨"u1", "e@x", "nurse"⟩)
        = .reject 403 "INSUFFICIENT_PERMISSIONS"
    ∧ requireRole ["doctor", "admin"] (some ⟨"u1", "e@x", "doctor"⟩) = .permit :=
  ⟨(requireRole_gate_spec ["doctor", "admin"] none).1 rfl,
   (requireRole_gate_spec ["doctor", "admin"] (some ⟨"u1", "e@x", "nurse"⟩)).2.1
      ⟨"u1", "e@x", "nurse"⟩ rfl (by decide),
   (requireRole_gate_spec ["doctor", "admin"] (some ⟨"u1", "e@x", "doctor"⟩)).2.2
      ⟨"u1", "e@x", "doctor"⟩ rfl (by decide)⟩

/-! ## Claim C6 -/

/-- Claim C6: when the user store is configured, the validated payload
carries a (truthy) subject id, and the store lookup by that id finds a
record, the attached identity is built from the stored id/email/role —
store values take precedence over the token claims — and the request
proceeds. -/
theorem storeLookup_found_identity (env : Env) (req : Req)
    (behavior : String → TokenBehavior) (lookup : String → DbLookup)
    (now : Int) (tok i a b c : String) (p : JwtPayload)
    (ht : extractToken req.authHeader = some tok)
    (hv : validateToken (behavior tok) now = .ok p)
    (hi : p.id? = some i) (hne : i ≠ "")
    (hf : lookup i = .found a b c) :
    authenticateToken env req behavior (some lookup) now = .ok ⟨a, b, c⟩ := by
  simp [authenticateToken, ht, hv, resolveUser, hi, hne, hf]

/-- Witness for `storeLookup_found_identity`: the scenario of spec
property 7 — signed token with subject `u1` and role `doctor`, store
returning role `doctor`. -/
theorem storeLookup_found_identity_witness :
    authenticateToken ⟨false, true⟩ ⟨some "Bearer t", "/x"⟩
      (fun _ => ⟨.ok { id? := some "u1", role? := some "doctor" }, .fail⟩)
      (some fun i => if i = "u1" then .found "u1" "doc@x" "doctor" else .notFound)
      0 = .ok ⟨"u1", "doc@x", "doctor"⟩ :=
  storeLookup_found_identity ⟨false, true⟩ ⟨some "Bearer t", "/x"⟩
    (fun _ => ⟨.ok { id? := some "u1", role? := some "doctor" }, .fail⟩)
    (fun i => if i = "u1" then .found "u1" "doc@x" "doctor" else .notFound)
    0 "t" "u1" "u1" "doc@x" "doctor" { id? := some "u1", role? := some "doctor" }
    rfl rfl rfl (by decide) (by decide)

/-! ## Claim C7 -/

/-- Claim C7: with the store configured and a (truthy) subject id in the
validated payload, an empty lookup result rejects with 401
`USER_NOT_FOUND` while a lookup failure rejects with 500 `DB_ERROR`; the
two outcomes carry distinct statuses and codes, so a store failure is
never surfaced as an authentication failure. -/
theorem storeLookup_failure_codes (env : Env) (req : Req)
    (behavior : String → TokenBehavior) (lookup : String → DbLookup)
    (now : Int) (tok i : String) (p : JwtPayload)
    (ht : extractToken req.authHeader = some tok)
    (hv : validateToken (behavior tok) now = .ok p)
    (hi : p.id? = some i) (hne : i ≠ "") :
    (lookup i = .notFound →
      authenticateToken env req behavior (some lookup) now
        = .reject 401 "USER_NOT_FOUND")
    ∧ (lookup i = .dbError →
      authenticateToken env req behavior (some lookup) now
        = .reject 500 "DB_ERROR") := by
  constructor <;> intro hf <;>
    simp [authenticateToken, ht, hv, resolveUser, hi, hne, hf]

/-- Witness for `storeLookup_failure_codes` at concrete inputs. -/
theorem storeLookup_failure_codes_witness :
    authenticateToken ⟨false, true⟩ ⟨some "Bearer t", "/x"⟩
      (fun _ => ⟨.ok { id? := some "u2" }, .fail⟩) (some fun _ => .notFound) 0
      = .reject 401 "USER_NOT_FOUND"
    ∧ authenticateToken ⟨false, true⟩ ⟨some "Bearer t", "/x"⟩
      (fun _ => ⟨.ok { id? := some "u2" }, .fail⟩) (some fun _ => .dbError) 0
      = .reject 500 "DB_ERROR" :=
  ⟨(storeLookup_failure_codes ⟨false, true⟩ ⟨some "Bearer t", "/x"⟩
      (fun _ => ⟨.ok { id? := some "u2" }, .fail⟩) (fun _ => .notFound) 0 "t" "u2"
      { id? := some "u2" } rfl rfl rfl (by decide)).1 rfl,
   (storeLookup_failure_codes ⟨false, true⟩ ⟨some "Bearer t", "/x"⟩
      (fun _ => ⟨.ok { id? := some "u2" }, .fail⟩) (fun _ => .dbError) 0 "t" "u2"
      { id? := some "u2" } rfl rfl rfl (by decide)).2 rfl⟩

/-! ## Claim C8 -/

/-- Claim C8 counterexample: the Token Resolver does not check the scheme
word at all — for the malformed header `Basic abc` (not of the form
`Bearer <token>`) it returns the substring `abc` instead of the no-token
signal. -/
theorem tokenResolver_scheme_cex :
    bearerFormToken? "Basic abc" = none
    ∧ extractToken (some "Basic abc") = some "abc" := by
  exact ⟨by decide, by decide⟩

/-- Claim C8 (amended): the Token Resolver is a pure function (modelled as
such) that returns the second space-separated chunk of the header whenever
that chunk exists and is nonempty, regardless of the scheme word — in
particular it returns the token substring on every well-formed
`Bearer <token>` header — and returns the no-token signal when the header
is absent, empty, or lacks a nonempty second chunk. -/
theorem tokenResolver_amended (h? : Option String) :
    (h? = none → extractToken h? = none)
    ∧ (∀ s, h? = some s → s = "" → extractToken h? = none)
    ∧ (∀ s, h? = some s → (jsSplitSpace s).get? 1 = none →
        extractToken h? = none)
    ∧ (∀ s, h? = some s → (jsSplitSpace s).get? 1 = some "" →
        extractToken h? = none)
    ∧ (∀ s t, h? = some s → bearerFormToken? s = some t →
        extractToken h? = some t)
    ∧ (∀ s t, h? = some s → (jsSplitSpace s).get? 1 = some t → t ≠ "" →
        extractToken h? = some t) := by
  have key : ∀ s t, h? = some s → (jsSplitSpace s).get? 1 = some t → t ≠ "" →
      extractToken h? = some t := by
    rintro s t rfl hg hne
    by_cases hs : s = ""
    · subst hs
      rw [show (jsSplitSpace "").get? 1 = none from rfl] at hg
      exact Option.noConfusion hg
    · unfold extractToken
      simp only [] at hg ⊢
      rw [if_neg hs, hg]
      simp only []
      rw [if_neg hne]
  refine ⟨?_, ?_, ?_, ?_, ?_, key⟩
  · rintro rfl
    rfl
  · rintro s rfl hs
    subst hs
    rfl
  · rintro s rfl hg
    by_cases hs : s = ""
    · subst hs
      rfl
    · unfold extractToken
      simp only []
      rw [if_neg hs, hg]
  · rintro s rfl hg
    by_cases hs : s = ""
    · subst hs
      rfl
    · unfold extractToken
      simp only []
      rw [if_neg hs, hg]
      rfl
  · rintro s t rfl hb
    unfold bearerFormToken? at hb
    split at hb
    · rename_i w t2 heq
      split at hb
      · rename_i hcond
        cases hb
        exact key s t rfl (by rw [heq]; rfl) hcond.2
      · exact Option.noConfusion hb
    · exact Option.noConfusion hb

/-- Witness for `tokenResolver_amended` at concrete inputs: a well-formed
header, the empty header, a header with no second chunk, and a header with
an empty second chunk. -/
theorem tokenResolver_amended_witness :
    extractToken (some "Bearer abc123") = some "abc123"
    ∧ extractToken (some "") = none
    ∧ extractToken (some "Bearer") = none
    ∧ extractToken (some "Bearer ") = none :=
  ⟨(tokenResolver_amended (some "Bearer abc123")).2.2.2.2.1 "Bearer abc123"
      "abc123" rfl (by decide),
   (tokenResolver_amended (some "")).2.1 "" rfl rfl,
   (tokenResolver_amended (some "Bearer")).2.2.1 "Bearer" rfl (by decide),
   (tokenResolver_amended (some "Bearer ")).2.2.2.1 "Bearer " rfl (by decide)⟩

/-! ## Claim C9 -/

/-- Claim C9: every identity the middleware attaches is fully populated —
it arises from exactly one of the three construction sites, each of which
sets all of id, email and role: the fixed demo identity, a complete store
row, or the claims-derived identity with defaults for every missing
field.  No partially-populated identity is ever attached. -/
theorem attachedIdentity_fully_populated (env : Env) (req : Req)
    (behavior : String → TokenBehavior) (db : Option (String → DbLookup))
    (now : Int) (u : UserIdentity)
    (h : authenticateToken env req behavior db now = .ok u) :
    u = demoUser
    ∨ (∃ lookup i, db = some lookup ∧ lookup i = .found u.id u.email u.role)
    ∨ (∃ p, u = identityFromClaims p) := by
  unfold authenticateToken at h
  rcases hx : extractToken req.authHeader with _ | tok <;> rw [hx] at h <;>
    simp only [] at h
  · cases hd : demoCond env req.url <;> rw [hd] at h <;> simp at h
    exact Or.inl h.symm
  · rcases hv : validateToken (behavior tok) now with p | _ | _ <;>
      rw [hv] at h <;> simp only [] at h
    · unfold resolveUser at h
      rcases db with _ | lookup <;> simp only [] at h
      · simp at h
        exact Or.inr (Or.inr ⟨p, h.symm⟩)
      · rcases hid : p.id? with _ | i <;> rw [hid] at h <;> simp only [] at h
        · simp at h
          exact Or.inr (Or.inr ⟨p, h.symm⟩)
        · by_cases hi : i = ""
          · rw [if_pos hi] at h
            simp at h
            exact Or.inr (Or.inr ⟨p, h.symm⟩)
          · rw [if_neg hi] at h
            rcases hlk : lookup i with ⟨a, b, c⟩ | _ | _ <;> rw [hlk] at h <;>
              simp only [] at h
            · cases h
              exact Or.inr (Or.inl ⟨lookup, i, rfl, hlk⟩)
            · exact absurd h (by simp)
            · exact absurd h (by simp)
    · exact absurd h (by simp)
    · cases hd : demoCond env req.url <;> rw [hd] at h <;> simp at h
      exact Or.inl h.symm

/-- Witness for `attachedIdentity_fully_populated` at a concrete input
(the demo-fallback path). -/
theorem attachedIdentity_fully_populated_witness :
    demoUser = demoUser
    ∨ (∃ lookup i, (none : Option (String → DbLookup)) = some lookup
        ∧ lookup i = .found demoUser.id demoUser.email demoUser.role)
    ∨ (∃ p, demoUser = identityFromClaims p) :=
  attachedIdentity_fully_populated ⟨false, false⟩ ⟨none, "/x"⟩
    (fun _ => ⟨.invalid, .fail⟩) none 0 demoUser (by decide)

/-! ## Claim C10 -/

/-- Claim C10: whenever the validated payload has no truthy `id` field
(including payloads carrying only a `userId` field), the store lookup is
skipped even when the store is configured, and the attached identity is
built from the claims with defaults: id `decoded.userId` or `demo-user`,
email `decoded.email` or `demo@example.com`, role `decoded.role` or
`admin` — so a decodable token with no role claim yields an
administrative identity without any store validation. -/
theorem missingId_skips_store (env : Env) (req : Req)
    (behavior : String → TokenBehavior) (db : Option (String → DbLookup))
    (now : Int) (tok : String) (p : JwtPayload)
    (ht : extractToken req.authHeader = some tok)
    (hv : validateToken (behavior tok) now = .ok p)
    (hi : truthyStr p.id? = false) :
    authenticateToken env req behavior db now
      = .ok ⟨jsOrD p.userId? "demo-user", jsOrD p.email? "demo@example.com",
             jsOrD p.role? "admin"⟩ := by
  obtain ⟨pid, puid, pem, prl, pex⟩ := p
  have hres : resolveUser db ⟨pid, puid, pem, prl, pex⟩
      = .ok ⟨jsOrD puid "demo-user", jsOrD pem "demo@example.com",
             jsOrD prl "admin"⟩ := by
    rcases pid with _ | i
    · cases db <;> simp [resolveUser, identityFromClaims, jsOrD]
    · have hz : i = "" := by
        simpa [truthyStr] using hi
      subst hz
      cases db <;> simp [resolveUser, identityFromClaims, jsOrD]
  simp [authenticateToken, ht, hv, hres]

/-- Witness for `missingId_skips_store` at a concrete input: a payload
with only a `userId` field, a configured store whose every lookup would
fail, and a resulting administrative identity with no store access. -/
theorem missingId_skips_store_witness :
    authenticateToken ⟨false, true⟩ ⟨some "Bearer t", "/x"⟩
      (fun _ => ⟨.invalid, .ok { userId? := some "u7" }⟩)
      (some fun _ => .dbError) 0
      = .ok ⟨"u7", "demo@example.com", "admin"⟩ :=
  missingId_skips_store ⟨false, true⟩ ⟨some "Bearer t", "/x"⟩
    (fun _ => ⟨.invalid, .ok { userId? := some "u7" }⟩) (some fun _ => .dbError)
    0 "t" { userId? := some "u7" } rfl rfl rfl

end Telecheck
